import Mathlib

/-!
Shallow embedding of the GMSL camera-chain drivers
(`drivers/media/i2c/vision.c`, `max96705.c`, `sg1_ar0231_ap0202.c`) and proofs
about their bring-up, streaming-control, format and bus-negotiation behaviour.

The I2C bus is modelled as a response oracle `resp : Nat -> Int` (the value the
k-th bus transaction returns: for `i2c_smbus_read_byte_data` the byte read or a
negative errno, for write primitives the status) together with a trace of the
observable events (register transactions and sleeps) the driver performs.
-/

namespace GmslChain

/-- Bus target of a register transaction: the MAX9286 deserializer (the probing
client, address fixed by devicetree) or an I2C device at a given bus address
(the MAX96705 serializers and AP0202 ISPs, whose dummy clients carry a mutable
address). -/
inductive Dev where
  | max9286 : Dev
  | i2cdev : Nat → Dev
deriving DecidableEq

/-- Observable events: byte-register reads/writes (`i2c_smbus_*_byte_data`),
raw buffer sends (`i2c_master_send`), and the delays (`usleep_range`,
`msleep`). A read records the value the bus returned. -/
inductive Event where
  | read : Dev → Nat → Int → Event
  | write : Dev → Nat → Nat → Event
  | sendBuf : Dev → List Nat → Event
  | usleepRange : Nat → Nat → Event
  | msleep : Nat → Event
deriving DecidableEq

/-- Bus state: the response oracle, how many transactions have happened, and
the trace of events so far. -/
structure BusState where
  resp : Nat → Int
  used : Nat
  trace : List Event

/-- Every pending bus response is 0 (all transactions succeed; reads return
0x00 unless a claim needs specific poll values). -/
def allZero (s : BusState) : Prop := ∀ k, s.resp k = 0

/-- Take the next bus response. -/
def busPop (s : BusState) : Int × BusState :=
  (s.resp s.used, { s with used := s.used + 1 })

/-- Record an event on the trace. -/
def emit (e : Event) (s : BusState) : BusState :=
  { s with trace := s.trace ++ [e] }

/-- `i2c_smbus_write_byte_data`: one bus transaction, returns its status. -/
def smbusWrite (d : Dev) (reg val : Nat) (s : BusState) : Int × BusState :=
  let r := busPop s
  (r.1, emit (Event.write d reg val) r.2)

/-- `i2c_smbus_read_byte_data`: one bus transaction, returns the byte read or
a negative errno. -/
def smbusRead (d : Dev) (reg : Nat) (s : BusState) : Int × BusState :=
  let r := busPop s
  (r.1, emit (Event.read d reg r.1) r.2)

/-- `i2c_master_send` of a byte buffer. -/
def i2cSend (d : Dev) (bytes : List Nat) (s : BusState) : Int × BusState :=
  let r := busPop s
  (r.1, emit (Event.sendBuf d bytes) r.2)

/-- `usleep_range(lo, hi)`. -/
def usleep (lo hi : Nat) (s : BusState) : BusState :=
  emit (Event.usleepRange lo hi) s

/-- `msleep(ms)`. -/
def msleep (ms : Nat) (s : BusState) : BusState :=
  emit (Event.msleep ms) s

/-- Helper to state the effect of a straight-line block: `k` transactions
consumed, events `t` appended. -/
def advance (s : BusState) (t : List Event) (k : Nat) : BusState :=
  { resp := s.resp, used := s.used + k, trace := s.trace ++ t }

/-- C's 32-bit `int` bitwise AND against a small non-negative mask, as used in
`ret & MASK` tests on a possibly negative `ret` (two's complement). -/
def cAnd (v : Int) (m : Nat) : Nat :=
  (v % (4294967296 : Int)).toNat &&& m

/-- Linux errno values used by the drivers. -/
def IOERR : Int := 5

def EINVAL : Int := 22

def ENODEV : Int := 19

def ENXIOERR : Int := 6

def ENOIOCTLCMD : Int := 515

end GmslChain

namespace Vision

open GmslChain

/-- vision.c register bit constants (registers of the MAX9286 deserializer). -/
def MAX9286_VIDEO_DETECT_MASK : Nat := 0x0f

def SOURCE_MASK : Nat := 1

def MAX9286_LOCKED : Nat := 0x80

def MAX9286_FSYNC_LOCKED : Nat := 0x40

def MAX9286_VCTYPE : Nat := 0x10

def MAX9286_CSIOUTEN : Nat := 0x08

def MAX9286_0X15_RESV : Nat := 0x03

def MAX96705_I2C_ADDRESS : Nat := 0x40

def AP0202_I2C_ADDRESS : Nat := 0x5d

/-- `max9286_read` from vision.c: smbus byte read on the deserializer client. -/
def max9286_read (reg : Nat) (s : BusState) : Int × BusState :=
  smbusRead Dev.max9286 reg s

/-- `max9286_write` from vision.c. -/
def max9286_write (reg val : Nat) (s : BusState) : Int × BusState :=
  smbusWrite Dev.max9286 reg val s

/-- Break condition of the video-detect poll in `max9286_check_video_links`:
`(ret & MAX9286_VIDEO_DETECT_MASK) == SOURCE_MASK`. -/
def detectGood (ret : Int) : Bool :=
  cAnd ret MAX9286_VIDEO_DETECT_MASK == SOURCE_MASK

/-- Break condition of the link-lock poll: `ret & MAX9286_LOCKED`. -/
def lockGood (ret : Int) : Bool :=
  cAnd ret MAX9286_LOCKED != 0

/-- Break condition of the frame-sync poll in `vision_s_stream`:
`max9286_read(dev, 0x31) & MAX9286_FSYNC_LOCKED`. -/
def fsyncGood (ret : Int) : Bool :=
  cAnd ret MAX9286_FSYNC_LOCKED != 0

/-- The common shape of the three bounded polling loops: up to `n` attempts;
each attempt reads `reg`; when `stopErr` (loops of `max9286_check_video_links`)
a negative read aborts the poll; a read satisfying `good` breaks with success;
otherwise sleep `usleep_range(lo, hi)` and retry.  `false` covers both
exhaustion and (when `stopErr`) a read error, which the C code maps to the
same error return. -/
def poll_status (reg : Nat) (stopErr : Bool) (good : Int → Bool) (lo hi : Nat) :
    Nat → BusState → Bool × BusState
  | 0, s => (false, s)
  | n + 1, s =>
    let r := max9286_read reg s
    if stopErr = true ∧ r.1 < 0 then (false, r.2)
    else if good r.1 = true then (true, r.2)
    else poll_status reg stopErr good lo hi n (usleep lo hi r.2)

/-- `max9286_check_video_links`: poll register 0x49 for the video-detect mask
(10 attempts, 3.5-5 ms apart), then register 0x27 for the lock bit (10
attempts, 3.5-4.5 ms apart); every failure path returns `-IOERR`. -/
def max9286_check_video_links (s : BusState) : Int × BusState :=
  let r1 := poll_status 0x49 true detectGood 3500 5000 10 s
  if r1.1 = false then (-IOERR, r1.2)
  else
    let r2 := poll_status 0x27 true lockGood 3500 4500 10 r1.2
    if r2.1 = false then (-IOERR, r2.2)
    else (0, r2.2)

/-- `vision_s_stream`: on enable, check video links, then poll register 0x31
for frame-sync lock (36 attempts, 9-11 ms apart) and on success write the CSI
output-enable pattern to register 0x15; on disable, write the disabled pattern
to register 0x15 unconditionally, ignoring the write status. -/
def vision_s_stream (enable : Bool) (s : BusState) : Int × BusState :=
  if enable = true then
    let r := max9286_check_video_links s
    if r.1 ≠ 0 then (r.1, r.2)
    else
      let rs := poll_status 0x31 false fsyncGood 9000 11000 36 r.2
      if rs.1 = false then (-EINVAL, rs.2)
      else
        let w := max9286_write 0x15
          (0x80 ||| MAX9286_VCTYPE ||| MAX9286_CSIOUTEN ||| MAX9286_0X15_RESV) rs.2
        (0, w.2)
  else
    let w := max9286_write 0x15 (MAX9286_VCTYPE ||| MAX9286_0X15_RESV) s
    (0, w.2)

/-- `vision_get_fmt` (also installed as the driver's set_fmt): ignores any
request and reports the fixed 1280x800 UYVY8 format; pad must be 0. -/
def vision_get_fmt (pad : Nat) : Int × (Nat × Nat × Nat) :=
  if pad ≠ 0 then (-EINVAL, (0, 0, 0))
  else (0, (1280, 800, 0x200f))

/-- The per-channel bus-address state of `struct vision_device`: the current
address of each MAX96705 dummy client (`dev->max96705[i]->addr`).  The AP0202
dummy clients all stay at `AP0202_I2C_ADDRESS`; vision.c never reassigns
them. -/
structure VisionDev where
  max96705Addr : List Nat
deriving DecidableEq

/-- `max96705_write` from vision.c: smbus byte write on serializer `index` at
its current bus address. -/
def max96705_write (dev : VisionDev) (reg val index : Nat) (s : BusState) :
    Int × BusState :=
  smbusWrite (Dev.i2cdev (dev.max96705Addr.getD index 0)) reg val s

/-- `ap0202_write` from vision.c: 4-byte `i2c_master_send` of big-endian
16-bit register and value to the AP0202 dummy client (fixed address). -/
def ap0202_write (reg val index : Nat) (s : BusState) : Int × BusState :=
  i2cSend (Dev.i2cdev AP0202_I2C_ADDRESS)
    [(reg >>> 8) % 256, reg &&& 0xff, (val >>> 8) % 256, val &&& 0xff] s

/-- `max96705_configure` from vision.c: the serializer link/video setup writes
at the factory address, each followed by its settle delay (the second
`msleep(10)` survives around a commented-out block in the C). -/
def max96705_configure (dev : VisionDev) (index : Nat) (s : BusState) :
    Int × BusState :=
  let w1 := max96705_write dev 0x04 0x47 index s
  if w1.1 < 0 then (w1.1, w1.2)
  else
    let w2 := max96705_write dev 0x07 0x84 index (msleep 8 w1.2)
    if w2.1 < 0 then (w2.1, w2.2)
    else
      let w3 := max96705_write dev 0x0e 0x02 index (msleep 8 w2.2)
      if w3.1 < 0 then (w3.1, w3.2)
      else (0, msleep 10 (msleep 10 w3.2))

/-- `max96705_configure_address` from vision.c: write the serializer's address
register 0x00 with `addr << 1` (at the current address), then update the
in-memory client address and settle 3.5-5 ms; a failed write returns the
errno with the handle untouched. -/
def max96705_configure_address (dev : VisionDev) (addr index : Nat)
    (s : BusState) : Int × VisionDev × BusState :=
  let w := max96705_write dev 0x00 ((addr <<< 1) % 256) index s
  if w.1 < 0 then (w.1, dev, w.2)
  else
    (0, { dev with max96705Addr := dev.max96705Addr.set index addr },
      usleep 3500 5000 w.2)

/-- The fixed `(register, value)` sequence of `ap0202_configure` from
vision.c, in program order (sensor-interface timing, crop window, output
size, then the `0xfc00`/`0x0040` apply-configuration command pair). -/
def ap0202RegSeq : List (Nat × Nat) :=
  [(0xc804, 0x40), (0xc806, 0x4), (0xc808, 0x477), (0xc80a, 0x783),
   (0xc814, 0x4b0), (0xc816, 0x960), (0xc8a0, 0x0), (0xc8a2, 0x0),
   (0xc8a4, 0x780), (0xc8a6, 0x438), (0xcae4, 0x500), (0xcae6, 0x2d0),
   (0xfc00, 0x2800), (0x0040, 0x8100)]

/-- The straight-line body of `ap0202_configure`: each register write is
followed by `msleep(100)`; a failed write aborts with its errno. -/
def ap0202_write_seq (index : Nat) : List (Nat × Nat) → BusState → Int × BusState
  | [], s => (0, s)
  | p :: rest, s =>
    let w := ap0202_write p.1 p.2 index s
    if w.1 < 0 then (w.1, w.2)
    else ap0202_write_seq index rest (msleep 100 w.2)

/-- `ap0202_configure` from vision.c.  Its `addr` parameter is accepted and
ignored, exactly as in the C (the ISP is never re-addressed). -/
def ap0202_configure (addr index : Nat) (s : BusState) : Int × BusState :=
  ap0202_write_seq index ap0202RegSeq s

/-- The `camera_config` per-channel loop over the remaining
`(sensor_addr, isp_addr)` pairs, `i` being the current channel index.  Each
iteration: enable only channel `i`'s forward/reverse control-channel path on
the deserializer (register 0x0a, `MAX9286_FWDCCEN(i) | MAX9286_REVCCEN(i)`),
configure the serializer at its factory address, reassign its address, write
serializer 0x04 = 0x87 at the new address, configure the ISP, then enable the
deserializer link (register 0x00, `MAX9286_MSTLINKSEL_AUTO |
MAX9286_LINKEN(i)`).  Any failure aborts the whole loop with the errno. -/
def camera_config_loop : List (Nat × Nat) → Nat → VisionDev → BusState →
    Int × VisionDev × BusState
  | [], _, dev, s => (0, dev, s)
  | p :: rest, i, dev, s =>
    let w1 := max9286_write 0x0a ((1 <<< (i + 4)) ||| (1 <<< i)) s
    if w1.1 < 0 then (w1.1, dev, w1.2)
    else
      let c1 := max96705_configure dev i (msleep 5 w1.2)
      if c1.1 < 0 then (c1.1, dev, c1.2)
      else
        let ca := max96705_configure_address dev p.1 i (msleep 10 c1.2)
        if ca.1 < 0 then (ca.1, ca.2.1, ca.2.2)
        else
          let dev := ca.2.1
          let w2 := max96705_write dev 0x04 0x87 i (msleep 10 ca.2.2)
          if w2.1 < 0 then (w2.1, dev, w2.2)
          else
            let c2 := ap0202_configure p.2 i (msleep 5 w2.2)
            if c2.1 < 0 then (c2.1, dev, c2.2)
            else
              let w3 := max9286_write 0x00 (0x80 ||| (1 <<< i))
                (usleep 5000 8000 c2.2)
              if w3.1 < 0 then (w3.1, dev, w3.2)
              else camera_config_loop rest (i + 1) dev w3.2

/-- `camera_config` from vision.c, after its devicetree parsing: the sensor
and ISP address lists must have equal length (else `-ENXIOERR`); a MAX96705
dummy client is created per channel at the factory address 0x40 (the AP0202
dummies all sit at 0x5d); then the channels are configured one by one. -/
def camera_config (saddrs iaddrs : List Nat) (s : BusState) :
    Int × VisionDev × BusState :=
  if saddrs.length ≠ iaddrs.length then (-ENXIOERR, ⟨[]⟩, s)
  else
    camera_config_loop (saddrs.zip iaddrs) 0
      ⟨List.replicate saddrs.length MAX96705_I2C_ADDRESS⟩ s

/-- The bus events `ap0202_configure` produces on a fault-free bus. -/
def ispConfigTrace : List Event :=
  ap0202RegSeq.flatMap fun p =>
    [Event.sendBuf (Dev.i2cdev AP0202_I2C_ADDRESS)
      [(p.1 >>> 8) % 256, p.1 &&& 0xff, (p.2 >>> 8) % 256, p.2 &&& 0xff],
     Event.msleep 100]

/-- The bus events one `camera_config` loop iteration produces for channel
`i` (serializer target address `saddr`) on a fault-free bus: the channel's
control-channel enable on the deserializer, the serializer configuration at
the factory address 0x40, the address reassignment, the serializer enable
write at the new address, the ISP configuration, and the deserializer link
enable — in that order. -/
def channelBlock (i saddr : Nat) : List Event :=
  [Event.write Dev.max9286 0x0a ((1 <<< (i + 4)) ||| (1 <<< i)),
   Event.msleep 5,
   Event.write (Dev.i2cdev MAX96705_I2C_ADDRESS) 0x04 0x47, Event.msleep 8,
   Event.write (Dev.i2cdev MAX96705_I2C_ADDRESS) 0x07 0x84, Event.msleep 8,
   Event.write (Dev.i2cdev MAX96705_I2C_ADDRESS) 0x0e 0x02, Event.msleep 10,
   Event.msleep 10,
   Event.msleep 10,
   Event.write (Dev.i2cdev MAX96705_I2C_ADDRESS) 0x00 ((saddr <<< 1) % 256),
   Event.usleepRange 3500 5000,
   Event.msleep 10,
   Event.write (Dev.i2cdev saddr) 0x04 0x87,
   Event.msleep 5] ++
  ispConfigTrace ++
  [Event.usleepRange 5000 8000,
   Event.write Dev.max9286 0x00 (0x80 ||| (1 <<< i))]

/-- Concatenation of the per-channel blocks, in channel-index order. -/
def channelBlocks : List (Nat × Nat) → Nat → List Event
  | [], _ => []
  | p :: rest, i => channelBlock i p.1 ++ channelBlocks rest (i + 1)

/-- The serializer address list after the loop has reassigned channels
`i, i+1, ...` to their target addresses. -/
def setAddrs : List (Nat × Nat) → Nat → List Nat → List Nat
  | [], _, l => l
  | p :: rest, i, l => setAddrs rest (i + 1) (l.set i p.1)

end Vision

namespace Max96705

open GmslChain

/-- max96705.c register constants. -/
def MAX96705_SERADDR : Nat := 0x00

def MAX96705_MAIN_CONTROL : Nat := 0x04

def MAX96705_MAIN_CONTROL_FWDCCEN : Nat := 0x01

def MAX96705_MAIN_CONTROL_REVCCEN : Nat := 0x02

def MAX96705_MAIN_CONTROL_CLINKEN : Nat := 0x40

def MAX96705_MAIN_CONTROL_SEREN : Nat := 0x80

/-- `MAX96705_CROSSBAR(x)` = `0x20 + x`. -/
def MAX96705_CROSSBAR (x : Nat) : Nat := 0x20 + x

def MAX96705_PAD_SOURCE : Nat := 1

/-- Media-bus types and flags used by `max96705_get_mbus_config`.
`V4L2_MBUS_PARALLEL` and `V4L2_MBUS_VSYNC_ACTIVE_HIGH` carry their mainline
values; the `GMSL` type and the `V4L2_MBUS_DATA_LSB` / `V4L2_MBUS_GMSL_*`
flags are additions of this tree whose headers are not in the sources given,
so they are modelled as distinct constants (the claims depend only on which
flag is which, never on the numeric values). -/
def V4L2_MBUS_PARALLEL : Nat := 1

def V4L2_MBUS_GMSL : Nat := 6

def V4L2_MBUS_VSYNC_ACTIVE_HIGH : Nat := 1 <<< 4

def V4L2_MBUS_DATA_LSB : Nat := 1 <<< 10

def V4L2_MBUS_GMSL_BWS_24B : Nat := 1 <<< 0

def V4L2_MBUS_GMSL_VSYNC_ACTIVE_HIGH : Nat := 1 <<< 1

def V4L2_MBUS_GMSL_VSYNC_ACTIVE_LOW : Nat := 1 <<< 2

/-- The mutable state of `struct max96705_device` the claims touch: the
client's current bus address and the `enabled` flag of `max96705_s_stream`. -/
structure SerDev where
  addr : Nat
  enabled : Nat
deriving DecidableEq

/-- `max96705_write` from max96705.c: smbus byte write at the client's
current address. -/
def max96705_write (dev : SerDev) (reg val : Nat) (s : BusState) :
    Int × BusState :=
  smbusWrite (Dev.i2cdev dev.addr) reg val s

/-- `max96705_configure_address` from max96705.c: write `MAX96705_SERADDR`
with `addr << 1`, then update the in-memory client address and settle
3.5-5 ms; on a failed write return the errno with the handle untouched. -/
def max96705_configure_address (dev : SerDev) (addr : Nat) (s : BusState) :
    Int × SerDev × BusState :=
  let w := max96705_write dev MAX96705_SERADDR ((addr <<< 1) % 256) s
  if w.1 < 0 then (w.1, dev, w.2)
  else (0, { dev with addr := addr }, usleep 3500 5000 w.2)

/-- `max96705_s_stream` from max96705.c: a no-op when `enable` equals the
recorded state; otherwise record the new state and write the main control
register with config-link, forward and reverse control-channel enables, plus
the serializer enable exactly when enabling. -/
def max96705_s_stream (dev : SerDev) (enable : Nat) (s : BusState) :
    Int × SerDev × BusState :=
  let control := MAX96705_MAIN_CONTROL_CLINKEN ||| MAX96705_MAIN_CONTROL_REVCCEN |||
    MAX96705_MAIN_CONTROL_FWDCCEN
  if enable = dev.enabled then (0, dev, s)
  else
    let dev' := { dev with enabled := enable }
    let control := if enable ≠ 0 then control ||| MAX96705_MAIN_CONTROL_SEREN
      else control
    let w := max96705_write dev' MAX96705_MAIN_CONTROL control s
    if w.1 < 0 then (w.1, dev', w.2)
    else (0, dev', msleep 5 w.2)

/-- What the remote-pad capability query of `max96705_get_mbus_config` can
yield: no remote pad/entity, or a `v4l2_subdev_call(.., get_mbus_config, ..)`
that returned `ret` having filled in `cfg` (which is meaningful when
`ret = 0`). -/
structure MbusConfig where
  mtype : Nat
  flags : Nat
deriving DecidableEq

inductive RemoteLookup where
  | missing : RemoteLookup
  | present : Int → MbusConfig → RemoteLookup
deriving DecidableEq

/-- The crossbar-reprogramming loops of `max96705_get_mbus_config`, folded
over their `(register, value)` sequence: each write aborts on a nonzero
status. -/
def crossbar_write_list (dev : SerDev) : List (Nat × Nat) → BusState →
    Int × BusState
  | [], s => (0, s)
  | p :: rest, s =>
    let w := max96705_write dev p.1 p.2 s
    if w.1 ≠ 0 then (w.1, w.2)
    else crossbar_write_list dev rest w.2

/-- The `(register, value)` pairs written by the two crossbar loops:
`CROSSBAR(i) = 7 - i` for `i = 0..7` then `CROSSBAR(16 + i) = 23 - i` for
`i = 0..7`. -/
def crossbarSeq : List (Nat × Nat) :=
  ((List.range 8).map fun i => (MAX96705_CROSSBAR i, 7 - i)) ++
    ((List.range 8).map fun i => (MAX96705_CROSSBAR (16 + i), 23 - i))

/-- `max96705_get_mbus_config`: only the source pad is valid; a missing
remote pad is `-ENODEV`; a failing remote query is propagated unless it is
`-ENOIOCTLCMD`, which falls back to GMSL active-high vsync; on success the
remote must be parallel, a least-significant-bit-first remote triggers the
crossbar reprogramming, and the remote's vsync polarity is mirrored into the
returned GMSL flags (on top of the hard-coded 24-bit bus width). -/
def max96705_get_mbus_config (dev : SerDev) (pad : Nat) (remote : RemoteLookup)
    (s : BusState) : Except Int Nat × BusState :=
  if pad ≠ MAX96705_PAD_SOURCE then (Except.error (-EINVAL), s)
  else
    match remote with
    | RemoteLookup.missing => (Except.error (-ENODEV), s)
    | RemoteLookup.present ret cfg =>
      let flags := V4L2_MBUS_GMSL_BWS_24B
      if ret ≠ 0 then
        if ret ≠ -ENOIOCTLCMD then (Except.error ret, s)
        else (Except.ok (flags ||| V4L2_MBUS_GMSL_VSYNC_ACTIVE_HIGH), s)
      else if cfg.mtype ≠ V4L2_MBUS_PARALLEL then (Except.error (-EINVAL), s)
      else
        let cb :=
          if cfg.flags &&& V4L2_MBUS_DATA_LSB ≠ 0 then
            crossbar_write_list dev crossbarSeq s
          else (0, s)
        if cb.1 ≠ 0 then (Except.error cb.1, cb.2)
        else if cfg.flags &&& V4L2_MBUS_VSYNC_ACTIVE_HIGH ≠ 0 then
          (Except.ok (flags ||| V4L2_MBUS_GMSL_VSYNC_ACTIVE_HIGH), cb.2)
        else (Except.ok (flags ||| V4L2_MBUS_GMSL_VSYNC_ACTIVE_LOW), cb.2)

end Max96705

namespace Sg1

open GmslChain

/-- Media-bus format codes (mainline values) and fixed v4l2 metadata values
used by sg1_ar0231_ap0202.c. -/
def MEDIA_BUS_FMT_UYVY8_1X16 : Nat := 0x200f

def MEDIA_BUS_FMT_RBG888_1X24 : Nat := 0x100e

def MEDIA_BUS_FMT_Y8_1X8 : Nat := 0x2001

def V4L2_COLORSPACE_SRGB : Nat := 8

def V4L2_FIELD_NONE : Nat := 1

def V4L2_YCBCR_ENC_DEFAULT : Nat := 0

def V4L2_QUANTIZATION_DEFAULT : Nat := 0

def V4L2_XFER_FUNC_DEFAULT : Nat := 0

def AP0202_I2C_ADDRESS : Nat := 0x5d

/-- `struct v4l2_mbus_framefmt` as the sg1 driver uses it. -/
structure Framefmt where
  width : Nat
  height : Nat
  code : Nat
  colorspace : Nat
  field : Nat
  ycbcr_enc : Nat
  quantization : Nat
  xfer_func : Nat
deriving DecidableEq

/-- `struct sg1_device` state the format claims touch: the stored active
format `dev->mf`. -/
structure Sg1Dev where
  mf : Framefmt
deriving DecidableEq

/-- `ap0202_write8` from sg1_ar0231_ap0202.c: 3-byte `i2c_master_send`
(big-endian 16-bit register, 8-bit value). -/
def ap0202_write8 (reg val : Nat) (s : BusState) : Int × BusState :=
  i2cSend (Dev.i2cdev AP0202_I2C_ADDRESS)
    [(reg >>> 8) % 256, reg &&& 0xff, val % 256] s

/-- `ap0202_write` from sg1_ar0231_ap0202.c: 4-byte `i2c_master_send`
(big-endian 16-bit register and value). -/
def ap0202_write (reg val : Nat) (s : BusState) : Int × BusState :=
  i2cSend (Dev.i2cdev AP0202_I2C_ADDRESS)
    [(reg >>> 8) % 256, reg &&& 0xff, (val >>> 8) % 256, val &&& 0xff] s

/-- `ap0202_config_change`: the apply-configuration command pair, a write to
0xfc00 then to the command register 0x0040, each followed by `msleep(100)`;
the first failure aborts with its errno. -/
def ap0202_config_change (s : BusState) : Int × BusState :=
  let w1 := ap0202_write 0xfc00 0x2800 s
  if w1.1 < 0 then (w1.1, w1.2)
  else
    let w2 := ap0202_write 0x0040 0x8100 (msleep 100 w1.2)
    if w2.1 < 0 then (w2.1, w2.2)
    else (0, msleep 100 w2.2)

/-- The `switch (mf->code)` of `sg1_set_fmt` choosing the ISP output-format
select value; an unsupported code falls into the default arm (same value as
Y8). -/
def camOutputFormat (code : Nat) : Nat :=
  if code = MEDIA_BUS_FMT_UYVY8_1X16 then 0
  else if code = MEDIA_BUS_FMT_RBG888_1X24 then 1
  else if code = MEDIA_BUS_FMT_Y8_1X8 then 2
  else 2

/-- `sg1_set_fmt`: pad must be 0; the request's metadata is forced to the
fixed profile and its code is overwritten with UYVY8 regardless of the
request; the ISP output-format select (0xcaea), width (0xcae4) and height
(0xcae6) are written and the apply-configuration sequence issued, all with
their statuses ignored; the resulting format is stored in `dev->mf` and
returned with status 0. -/
def sg1_set_fmt (dev : Sg1Dev) (pad : Nat) (mf : Framefmt) (s : BusState) :
    Int × Framefmt × Sg1Dev × BusState :=
  if pad ≠ 0 then (-EINVAL, mf, dev, s)
  else
    let cam := camOutputFormat mf.code
    let mf' : Framefmt :=
      { mf with
        colorspace := V4L2_COLORSPACE_SRGB
        field := V4L2_FIELD_NONE
        ycbcr_enc := V4L2_YCBCR_ENC_DEFAULT
        quantization := V4L2_QUANTIZATION_DEFAULT
        xfer_func := V4L2_XFER_FUNC_DEFAULT
        code := MEDIA_BUS_FMT_UYVY8_1X16 }
    let s := (ap0202_write8 0xcaea cam s).2
    let s := (ap0202_write 0xcae4 mf'.width s).2
    let s := (ap0202_write 0xcae6 mf'.height s).2
    let s := (ap0202_config_change s).2
    (0, mf', { dev with mf := mf' }, s)

/-- `sg1_get_fmt`: pad must be 0; returns the stored format `dev->mf`
(leaving the caller's buffer unchanged on the pad error). -/
def sg1_get_fmt (dev : Sg1Dev) (pad : Nat) (mf : Framefmt) : Int × Framefmt :=
  if pad ≠ 0 then (-EINVAL, mf)
  else (0, dev.mf)

end Sg1

namespace Vision

open GmslChain

/-- A trace fragment produced by a polling loop on register `reg` with
inter-attempt sleeps `usleep_range(lo, hi)`: nothing but reads of `reg` on
the deserializer and those sleeps. -/
def pollEvents (reg lo hi : Nat) (t : List Event) : Prop :=
  ∀ e ∈ t, (∃ v, e = Event.read Dev.max9286 reg v) ∨ e = Event.usleepRange lo hi

/-- Number of read attempts of register `reg` in a trace fragment. -/
def readsOf (reg : Nat) (t : List Event) : Nat :=
  t.countP fun e =>
    match e with
    | Event.read _ r _ => r == reg
    | _ => false

/-- Number of register writes (of any kind) in a trace fragment. -/
def writesOf (t : List Event) : Nat :=
  t.countP fun e =>
    match e with
    | Event.write _ _ _ => true
    | Event.sendBuf _ _ => true
    | _ => false

/-- The poll broke out successfully: its last event is the read of `reg`
whose value satisfied the loop's break condition (and was not a bus error,
for the loops that check for one). -/
def pollHit (reg : Nat) (stopErr : Bool) (good : Int → Bool) (t : List Event) :
    Prop :=
  ∃ v, t.getLast? = some (Event.read Dev.max9286 reg v) ∧ good v = true ∧
    (stopErr = true → 0 ≤ v)

lemma pollHit_shift (reg : Nat) (se : Bool) (good : Int → Bool) (v : Int)
    (lo hi : Nat) (t : List Event) :
    pollHit reg se good
      (Event.read Dev.max9286 reg v :: Event.usleepRange lo hi :: t) ↔
      pollHit reg se good t := by
  cases t with
  | nil => simp [pollHit]
  | cons b t => simp [pollHit, List.getLast?_cons_cons]

/-- Full characterization of one polling loop: it appends a fragment of reads
of `reg` and `usleep_range(lo, hi)` sleeps, makes at most `n` read attempts,
and reports success exactly when the fragment ends with a read satisfying the
break condition. -/
lemma poll_status_spec (reg : Nat) (se : Bool) (good : Int → Bool) (lo hi : Nat) :
    ∀ (n : Nat) (s : BusState), ∃ t : List Event,
      (poll_status reg se good lo hi n s).2.trace = s.trace ++ t ∧
      pollEvents reg lo hi t ∧
      readsOf reg t ≤ n ∧
      ((poll_status reg se good lo hi n s).1 = true ↔ pollHit reg se good t) := by
  intro n
  induction n with
  | zero =>
    intro s
    refine ⟨[], by simp [poll_status], ?_, ?_, ?_⟩
    · intro e he
      cases he
    · simp [readsOf]
    · simp [poll_status, pollHit]
  | succ n ih =>
    intro s
    by_cases hstop : se = true ∧ s.resp s.used < 0
    · refine ⟨[Event.read Dev.max9286 reg (s.resp s.used)], ?_, ?_, ?_, ?_⟩
      · simp [poll_status, max9286_read, smbusRead, busPop, emit, hstop]
      · intro e he
        simp at he
        subst he
        exact Or.inl ⟨_, rfl⟩
      · simp [readsOf]
      · simp [poll_status, max9286_read, smbusRead, busPop, emit, hstop, pollHit]
    · by_cases hg : good (s.resp s.used) = true
      · refine ⟨[Event.read Dev.max9286 reg (s.resp s.used)], ?_, ?_, ?_, ?_⟩
        · simp [poll_status, max9286_read, smbusRead, busPop, emit, hstop, hg]
        · intro e he
          simp at he
          subst he
          exact Or.inl ⟨_, rfl⟩
        · simp [readsOf]
        · simp [poll_status, max9286_read, smbusRead, busPop, emit, hstop, hg,
            pollHit]
          intro hse
          rcases Decidable.not_and_iff_or_not.mp hstop with h | h
          · exact absurd hse h
          · omega
      · obtain ⟨t', htr, hev, hct, hiff⟩ :=
          ih (usleep lo hi (emit (Event.read Dev.max9286 reg (s.resp s.used))
            { s with used := s.used + 1 }))
        refine ⟨Event.read Dev.max9286 reg (s.resp s.used) ::
          Event.usleepRange lo hi :: t', ?_, ?_, ?_, ?_⟩
        · have : (poll_status reg se good lo hi (n + 1) s) =
            poll_status reg se good lo hi n
              (usleep lo hi (emit (Event.read Dev.max9286 reg (s.resp s.used))
                { s with used := s.used + 1 })) := by
            simp [poll_status, max9286_read, smbusRead, busPop, emit, hstop, hg]
          rw [this, htr]
          simp [usleep, emit, List.append_assoc]
        · intro e he
          rcases List.mem_cons.mp he with he | he
          · exact Or.inl ⟨_, he⟩
          · rcases List.mem_cons.mp he with he | he
            · exact Or.inr he
            · exact hev e he
        · simp only [readsOf, List.countP_cons] at hct ⊢
          simp
          omega
        · have hrw : (poll_status reg se good lo hi (n + 1) s) =
            poll_status reg se good lo hi n
              (usleep lo hi (emit (Event.read Dev.max9286 reg (s.resp s.used))
                { s with used := s.used + 1 })) := by
            simp [poll_status, max9286_read, smbusRead, busPop, emit, hstop, hg]
          rw [hrw, pollHit_shift]
          exact hiff

lemma pollEvents_no_write (reg lo hi : Nat) (t : List Event)
    (h : pollEvents reg lo hi t) : ∀ d g v, Event.write d g v ∉ t := by
  intro d g v hm
  rcases h _ hm with ⟨w, hw⟩ | hw <;> simp at hw

end Vision

section ClaimTheorems

open GmslChain

/-- Claim C1: a `set_streaming(true)` call (`vision_s_stream` with enable, on
any bus behaviour) first polls the video-detect register 0x49 up to 10
attempts with 3.5-5 ms sleeps between attempts, then the link-lock register
0x27 up to 10 attempts, then the frame-sync register 0x31 up to 36 attempts
with 9-11 ms sleeps; it writes the CSI output-enable register 0x15 with the
enabled pattern if and only if all three polls broke out successfully, and on
any poll failure it returns a negative error having performed no write at
all. -/
theorem c1_set_streaming_enable_poll_sequence (s : BusState) :
    ∃ t1 t2 t3 t4 : List Event,
      (Vision.vision_s_stream true s).2.trace =
        s.trace ++ (t1 ++ (t2 ++ (t3 ++ t4))) ∧
      Vision.pollEvents 0x49 3500 5000 t1 ∧ Vision.readsOf 0x49 t1 ≤ 10 ∧
      Vision.pollEvents 0x27 3500 4500 t2 ∧ Vision.readsOf 0x27 t2 ≤ 10 ∧
      Vision.pollEvents 0x31 9000 11000 t3 ∧ Vision.readsOf 0x31 t3 ≤ 36 ∧
      ((Vision.vision_s_stream true s).1 = 0 ↔
        (Vision.pollHit 0x49 true Vision.detectGood t1 ∧
         Vision.pollHit 0x27 true Vision.lockGood t2 ∧
         Vision.pollHit 0x31 false Vision.fsyncGood t3)) ∧
      ((Vision.vision_s_stream true s).1 = 0 →
        t4 = [Event.write Dev.max9286 0x15
          (0x80 ||| Vision.MAX9286_VCTYPE ||| Vision.MAX9286_CSIOUTEN |||
            Vision.MAX9286_0X15_RESV)]) ∧
      ((Vision.vision_s_stream true s).1 ≠ 0 →
        (Vision.vision_s_stream true s).1 < 0 ∧ t4 = [] ∧
          ∀ d g v, Event.write d g v ∉ t1 ++ (t2 ++ (t3 ++ t4))) := by
  obtain ⟨t1, h1tr, h1ev, h1ct, h1iff⟩ :=
    Vision.poll_status_spec 0x49 true Vision.detectGood 3500 5000 10 s
  cases hb1 : (Vision.poll_status 0x49 true Vision.detectGood 3500 5000 10 s).1 with
  | false =>
    have hvs : Vision.vision_s_stream true s =
        (-IOERR, (Vision.poll_status 0x49 true Vision.detectGood 3500 5000 10 s).2) := by
      simp [Vision.vision_s_stream, Vision.max9286_check_video_links, hb1, IOERR]
    rw [hb1] at h1iff
    refine ⟨t1, [], [], [], ?_, h1ev, h1ct, ?_, ?_, ?_, ?_, ?_, ?_, ?_⟩
    · rw [hvs]
      simpa using h1tr
    · intro e he
      cases he
    · simp [Vision.readsOf]
    · intro e he
      cases he
    · simp [Vision.readsOf]
    · rw [hvs]
      constructor
      · intro h
        exact absurd h (by simp [IOERR])
      · rintro ⟨hh1, -, -⟩
        exact absurd (h1iff.mpr hh1) (by simp)
    · rw [hvs]
      intro h
      exact absurd h (by simp [IOERR])
    · rw [hvs]
      refine fun _ => ⟨by simp [IOERR], rfl, ?_⟩
      intro d g v hm
      simp at hm
      exact Vision.pollEvents_no_write _ _ _ _ h1ev d g v hm
  | true =>
    obtain ⟨t2, h2tr, h2ev, h2ct, h2iff⟩ :=
      Vision.poll_status_spec 0x27 true Vision.lockGood 3500 4500 10
        (Vision.poll_status 0x49 true Vision.detectGood 3500 5000 10 s).2
    rw [hb1] at h1iff
    cases hb2 : (Vision.poll_status 0x27 true Vision.lockGood 3500 4500 10
        (Vision.poll_status 0x49 true Vision.detectGood 3500 5000 10 s).2).1 with
    | false =>
      have hvs : Vision.vision_s_stream true s =
          (-IOERR, (Vision.poll_status 0x27 true Vision.lockGood 3500 4500 10
            (Vision.poll_status 0x49 true Vision.detectGood 3500 5000 10 s).2).2) := by
        simp [Vision.vision_s_stream, Vision.max9286_check_video_links, hb1, hb2, IOERR]
      rw [hb2] at h2iff
      refine ⟨t1, t2, [], [], ?_, h1ev, h1ct, h2ev, h2ct, ?_, ?_, ?_, ?_, ?_⟩
      · rw [hvs]
        rw [h2tr, h1tr]
        simp
      · intro e he
        cases he
      · simp [Vision.readsOf]
      · rw [hvs]
        constructor
        · intro h
          exact absurd h (by simp [IOERR])
        · rintro ⟨-, hh2, -⟩
          exact absurd (h2iff.mpr hh2) (by simp)
      · rw [hvs]
        intro h
        exact absurd h (by simp [IOERR])
      · rw [hvs]
        refine fun _ => ⟨by simp [IOERR], rfl, ?_⟩
        intro d g v hm
        simp at hm
        rcases hm with hm | hm
        · exact Vision.pollEvents_no_write _ _ _ _ h1ev d g v hm
        · exact Vision.pollEvents_no_write _ _ _ _ h2ev d g v hm
    | true =>
      obtain ⟨t3, h3tr, h3ev, h3ct, h3iff⟩ :=
        Vision.poll_status_spec 0x31 false Vision.fsyncGood 9000 11000 36
          (Vision.poll_status 0x27 true Vision.lockGood 3500 4500 10
            (Vision.poll_status 0x49 true Vision.detectGood 3500 5000 10 s).2).2
      rw [hb2] at h2iff
      cases hb3 : (Vision.poll_status 0x31 false Vision.fsyncGood 9000 11000 36
          (Vision.poll_status 0x27 true Vision.lockGood 3500 4500 10
            (Vision.poll_status 0x49 true Vision.detectGood 3500 5000 10 s).2).2).1 with
      | false =>
        have hvs : Vision.vision_s_stream true s =
            (-EINVAL, (Vision.poll_status 0x31 false Vision.fsyncGood 9000 11000 36
              (Vision.poll_status 0x27 true Vision.lockGood 3500 4500 10
                (Vision.poll_status 0x49 true Vision.detectGood 3500 5000 10 s).2).2).2) := by
          simp [Vision.vision_s_stream, Vision.max9286_check_video_links, hb1, hb2,
            hb3, IOERR]
        rw [hb3] at h3iff
        refine ⟨t1, t2, t3, [], ?_, h1ev, h1ct, h2ev, h2ct, h3ev, h3ct, ?_, ?_, ?_⟩
        · rw [hvs, h3tr, h2tr, h1tr]
          simp
        · rw [hvs]
          constructor
          · intro h
            exact absurd h (by simp [EINVAL])
          · rintro ⟨-, -, hh3⟩
            exact absurd (h3iff.mpr hh3) (by simp)
        · rw [hvs]
          intro h
          exact absurd h (by simp [EINVAL])
        · rw [hvs]
          refine fun _ => ⟨by simp [EINVAL], rfl, ?_⟩
          intro d g v hm
          simp at hm
          rcases hm with hm | hm | hm
          · exact Vision.pollEvents_no_write _ _ _ _ h1ev d g v hm
          · exact Vision.pollEvents_no_write _ _ _ _ h2ev d g v hm
          · exact Vision.pollEvents_no_write _ _ _ _ h3ev d g v hm
      | true =>
        have hvs : Vision.vision_s_stream true s =
            (0, emit (Event.write Dev.max9286 0x15
              (0x80 ||| Vision.MAX9286_VCTYPE ||| Vision.MAX9286_CSIOUTEN |||
                Vision.MAX9286_0X15_RESV))
              { (Vision.poll_status 0x31 false Vision.fsyncGood 9000 11000 36
                  (Vision.poll_status 0x27 true Vision.lockGood 3500 4500 10
                    (Vision.poll_status 0x49 true Vision.detectGood 3500 5000 10
                      s).2).2).2 with
                used := (Vision.poll_status 0x31 false Vision.fsyncGood 9000 11000 36
                  (Vision.poll_status 0x27 true Vision.lockGood 3500 4500 10
                    (Vision.poll_status 0x49 true Vision.detectGood 3500 5000 10
                      s).2).2).2.used + 1 }) := by
          simp [Vision.vision_s_stream, Vision.max9286_check_video_links, hb1, hb2,
            hb3, IOERR, Vision.max9286_write, smbusWrite, busPop]
        rw [hb3] at h3iff
        refine ⟨t1, t2, t3,
          [Event.write Dev.max9286 0x15
            (0x80 ||| Vision.MAX9286_VCTYPE ||| Vision.MAX9286_CSIOUTEN |||
              Vision.MAX9286_0X15_RESV)],
          ?_, h1ev, h1ct, h2ev, h2ct, h3ev, h3ct, ?_, ?_, ?_⟩
        · rw [hvs]
          simp only [emit]
          rw [h3tr, h2tr, h1tr]
          simp
        · rw [hvs]
          simp only [true_iff]
          exact ⟨h1iff.mp rfl, h2iff.mp rfl, h3iff.mp rfl⟩
        · intro _
          rfl
        · rw [hvs]
          intro h
          exact absurd rfl h

/-- Claim C2, counterexample: on a bus where every poll succeeds on its first
attempt, a second consecutive `vision_s_stream(true)` also returns success,
but it re-issues the poll sequence (a second read of the video-detect
register 0x49 appears on the trace) and re-issues the enable register write
(a second write appears), so the chain-level `set_streaming(true)` is not the
claimed no-op. -/
theorem c2_repeat_enable_reissues_polls_and_writes :
    (Vision.vision_s_stream true
      ⟨fun k => [1, 0x80, 0x40, 0, 1, 0x80, 0x40, 0].getD k 0, 0, []⟩).1 = 0 ∧
    (Vision.vision_s_stream true
      (Vision.vision_s_stream true
        ⟨fun k => [1, 0x80, 0x40, 0, 1, 0x80, 0x40, 0].getD k 0, 0, []⟩).2).1 = 0 ∧
    Vision.readsOf 0x49
      (Vision.vision_s_stream true
        ⟨fun k => [1, 0x80, 0x40, 0, 1, 0x80, 0x40, 0].getD k 0, 0, []⟩).2.trace = 1 ∧
    Vision.writesOf
      (Vision.vision_s_stream true
        ⟨fun k => [1, 0x80, 0x40, 0, 1, 0x80, 0x40, 0].getD k 0, 0, []⟩).2.trace = 1 ∧
    Vision.readsOf 0x49
      (Vision.vision_s_stream true
        (Vision.vision_s_stream true
          ⟨fun k => [1, 0x80, 0x40, 0, 1, 0x80, 0x40, 0].getD k 0, 0,
            []⟩).2).2.trace = 2 ∧
    Vision.writesOf
      (Vision.vision_s_stream true
        (Vision.vision_s_stream true
          ⟨fun k => [1, 0x80, 0x40, 0, 1, 0x80, 0x40, 0].getD k 0, 0,
            []⟩).2).2.trace = 2 := by
  decide

/-- Claim C2 (amended): the chain-level `vision_s_stream` keeps no state and
re-runs the polls and writes on every call (see the counterexample); the
idempotence the claim describes holds one layer down, in the serializer
driver: `max96705_s_stream` called with the already-recorded state is a
no-op returning success, with no bus transaction and no state change. -/
theorem c2_serializer_s_stream_idempotent (dev : Max96705.SerDev) (en : Nat)
    (s : BusState) (h : en = dev.enabled) :
    Max96705.max96705_s_stream dev en s = (0, dev, s) := by
  simp [Max96705.max96705_s_stream, h]

theorem c2_serializer_s_stream_idempotent_witness :
    Max96705.max96705_s_stream ⟨0x51, 1⟩ 1 ⟨fun _ => 0, 0, []⟩ =
      (0, ⟨0x51, 1⟩, ⟨fun _ => 0, 0, []⟩) :=
  c2_serializer_s_stream_idempotent ⟨0x51, 1⟩ 1 ⟨fun _ => 0, 0, []⟩ rfl

/-- Claim C4: `set_streaming(false)` (`vision_s_stream` with enable = 0)
always returns 0 and performs exactly one bus operation: the write of the CSI
output register 0x15 with the disabled pattern, with no polling and with the
write's own bus status ignored (the theorem holds for every bus behaviour,
including one that fails the write). -/
theorem c4_set_streaming_disable_unconditional (s : BusState) :
    Vision.vision_s_stream false s =
      (0, advance s
        [Event.write Dev.max9286 0x15
          (Vision.MAX9286_VCTYPE ||| Vision.MAX9286_0X15_RESV)] 1) := by
  simp [Vision.vision_s_stream, Vision.max9286_write, smbusWrite, busPop, emit,
    advance]

/-- Claim C7: `max96705_configure_address` writes the serializer's address
register 0x00 with the new 7-bit address shifted left by one, at the handle's
current bus address; on success it updates the in-memory handle to the new
address and settles 3.5-5 ms before returning; a bus error on the write is
returned to the caller as-is, with exactly the one (unretried) write on the
bus. -/
theorem c7_configure_address_protocol (dev : Max96705.SerDev) (a : Nat)
    (f : Nat → Int) (ha : a < 128) :
    (0 ≤ f 0 →
      Max96705.max96705_configure_address dev a ⟨f, 0, []⟩ =
        (0, { dev with addr := a },
          ⟨f, 1, [Event.write (Dev.i2cdev dev.addr) Max96705.MAX96705_SERADDR
            (a <<< 1), Event.usleepRange 3500 5000]⟩)) ∧
    (f 0 < 0 →
      Max96705.max96705_configure_address dev a ⟨f, 0, []⟩ =
        (f 0, dev,
          ⟨f, 1, [Event.write (Dev.i2cdev dev.addr) Max96705.MAX96705_SERADDR
            (a <<< 1)]⟩)) := by
  have hmod : (a <<< 1) % 256 = a <<< 1 := by
    rw [Nat.shiftLeft_eq]
    omega
  constructor
  · intro h0
    simp [Max96705.max96705_configure_address, Max96705.max96705_write,
      smbusWrite, busPop, emit, usleep, hmod, not_lt.mpr h0]
  · intro h0
    simp [Max96705.max96705_configure_address, Max96705.max96705_write,
      smbusWrite, busPop, emit, usleep, hmod, h0]

theorem c7_configure_address_protocol_witness :
    Max96705.max96705_configure_address ⟨0x40, 0⟩ 0x51 ⟨fun _ => 0, 0, []⟩ =
      (0, ⟨0x51, 0⟩,
        ⟨fun _ => 0, 1, [Event.write (Dev.i2cdev 0x40)
          Max96705.MAX96705_SERADDR (0x51 <<< 1),
          Event.usleepRange 3500 5000]⟩) :=
  (c7_configure_address_protocol ⟨0x40, 0⟩ 0x51 (fun _ => 0) (by decide)).1
    (by decide)

/-- Claim C9: if the write of the serializer's address register fails, the
in-memory handle keeps its previous bus address, no settle delay happens (no
sleep event at all on the trace), and the bus error is returned. -/
theorem c9_configure_address_failure_atomic (dev : Max96705.SerDev) (a : Nat)
    (f : Nat → Int) (h : f 0 < 0) :
    (Max96705.max96705_configure_address dev a ⟨f, 0, []⟩).1 = f 0 ∧
    (Max96705.max96705_configure_address dev a ⟨f, 0, []⟩).2.1 = dev ∧
    ∀ lo hi, Event.usleepRange lo hi ∉
      (Max96705.max96705_configure_address dev a ⟨f, 0, []⟩).2.2.trace := by
  refine ⟨?_, ?_, ?_⟩ <;>
    simp [Max96705.max96705_configure_address, Max96705.max96705_write,
      smbusWrite, busPop, emit, h]

theorem c9_configure_address_failure_atomic_witness :
    (Max96705.max96705_configure_address ⟨0x40, 7⟩ 0x51
      ⟨fun _ => -5, 0, []⟩).1 = (fun _ => (-5 : Int)) 0 ∧
    (Max96705.max96705_configure_address ⟨0x40, 7⟩ 0x51
      ⟨fun _ => -5, 0, []⟩).2.1 = ⟨0x40, 7⟩ ∧
    ∀ lo hi, Event.usleepRange lo hi ∉
      (Max96705.max96705_configure_address ⟨0x40, 7⟩ 0x51
        ⟨fun _ => -5, 0, []⟩).2.2.trace :=
  c9_configure_address_failure_atomic ⟨0x40, 7⟩ 0x51 (fun _ => -5) (by decide)

/-- Claim C10: every value `max96705_s_stream` writes to the main control
register 0x04 has the config-link, forward and reverse control-channel enable
bits set; the value written when disabling differs from the enabling one only
in the serializer-enable bit, which it clears — so the control channel stays
enabled after stream-off. -/
theorem c10_main_control_keeps_control_channel (dev : Max96705.SerDev)
    (en : Nat) (f : Nat → Int) :
    ∀ d g v, Event.write d g v ∈
      (Max96705.max96705_s_stream dev en ⟨f, 0, []⟩).2.2.trace →
      g = Max96705.MAX96705_MAIN_CONTROL ∧
      v &&& (Max96705.MAX96705_MAIN_CONTROL_CLINKEN |||
        Max96705.MAX96705_MAIN_CONTROL_REVCCEN |||
        Max96705.MAX96705_MAIN_CONTROL_FWDCCEN) =
        (Max96705.MAX96705_MAIN_CONTROL_CLINKEN |||
         Max96705.MAX96705_MAIN_CONTROL_REVCCEN |||
         Max96705.MAX96705_MAIN_CONTROL_FWDCCEN) ∧
      (en = 0 →
        v = Max96705.MAX96705_MAIN_CONTROL_CLINKEN |||
          Max96705.MAX96705_MAIN_CONTROL_REVCCEN |||
          Max96705.MAX96705_MAIN_CONTROL_FWDCCEN) ∧
      (en ≠ 0 →
        v = (Max96705.MAX96705_MAIN_CONTROL_CLINKEN |||
          Max96705.MAX96705_MAIN_CONTROL_REVCCEN |||
          Max96705.MAX96705_MAIN_CONTROL_FWDCCEN) |||
          Max96705.MAX96705_MAIN_CONTROL_SEREN) := by
  intro d g v hm
  by_cases hsame : en = dev.enabled
  · simp [Max96705.max96705_s_stream, hsame] at hm
  · by_cases hen : en ≠ 0
    · by_cases hw : f 0 < 0 <;>
        · simp [Max96705.max96705_s_stream, Max96705.max96705_write, smbusWrite,
            busPop, emit, msleep, hsame, hen, hw] at hm
          refine ⟨hm.2.1, ?_, fun h0 => absurd h0 hen, fun _ => hm.2.2⟩
          rw [hm.2.2]
          decide
    · simp only [ne_eq, not_not] at hen
      subst hen
      by_cases hw : f 0 < 0 <;>
        · simp [Max96705.max96705_s_stream, Max96705.max96705_write, smbusWrite,
            busPop, emit, msleep, hsame, hw] at hm
          refine ⟨hm.2.1, ?_, fun _ => hm.2.2, fun h0 => absurd rfl h0⟩
          rw [hm.2.2]
          decide

theorem c10_main_control_keeps_control_channel_witness :
    Dev.i2cdev 0x40 = Dev.i2cdev 0x40 ∧
    (4 : Nat) = Max96705.MAX96705_MAIN_CONTROL ∧
    (0xc3 : Nat) &&& (Max96705.MAX96705_MAIN_CONTROL_CLINKEN |||
      Max96705.MAX96705_MAIN_CONTROL_REVCCEN |||
      Max96705.MAX96705_MAIN_CONTROL_FWDCCEN) =
      (Max96705.MAX96705_MAIN_CONTROL_CLINKEN |||
       Max96705.MAX96705_MAIN_CONTROL_REVCCEN |||
       Max96705.MAX96705_MAIN_CONTROL_FWDCCEN) ∧
    ((1 : Nat) = 0 →
      (0xc3 : Nat) = Max96705.MAX96705_MAIN_CONTROL_CLINKEN |||
        Max96705.MAX96705_MAIN_CONTROL_REVCCEN |||
        Max96705.MAX96705_MAIN_CONTROL_FWDCCEN) ∧
    ((1 : Nat) ≠ 0 →
      (0xc3 : Nat) = (Max96705.MAX96705_MAIN_CONTROL_CLINKEN |||
        Max96705.MAX96705_MAIN_CONTROL_REVCCEN |||
        Max96705.MAX96705_MAIN_CONTROL_FWDCCEN) |||
        Max96705.MAX96705_MAIN_CONTROL_SEREN) :=
  ⟨rfl, (c10_main_control_keeps_control_channel ⟨0x40, 0⟩ 1 (fun _ => 0)
    (Dev.i2cdev 0x40) 4 0xc3 (by decide)).1,
   (c10_main_control_keeps_control_channel ⟨0x40, 0⟩ 1 (fun _ => 0)
    (Dev.i2cdev 0x40) 4 0xc3 (by decide)).2.1,
   (c10_main_control_keeps_control_channel ⟨0x40, 0⟩ 1 (fun _ => 0)
    (Dev.i2cdev 0x40) 4 0xc3 (by decide)).2.2.1,
   (c10_main_control_keeps_control_channel ⟨0x40, 0⟩ 1 (fun _ => 0)
    (Dev.i2cdev 0x40) 4 0xc3 (by decide)).2.2.2⟩

/-- Claim C8: when the downstream consumer does not implement the mbus
capability query (`-ENOIOCTLCMD`), `max96705_get_mbus_config` succeeds with
the GMSL active-high vsync default (no bus transaction); any other downstream
query failure is propagated to the caller as that error. -/
theorem c8_mbus_query_fallback (dev : Max96705.SerDev) (e : Int)
    (cfg : Max96705.MbusConfig) (s : BusState) (he : e ≠ 0) :
    (e = -ENOIOCTLCMD →
      Max96705.max96705_get_mbus_config dev 1 (Max96705.RemoteLookup.present e cfg) s =
        (Except.ok (Max96705.V4L2_MBUS_GMSL_BWS_24B |||
          Max96705.V4L2_MBUS_GMSL_VSYNC_ACTIVE_HIGH), s)) ∧
    (e ≠ -ENOIOCTLCMD →
      Max96705.max96705_get_mbus_config dev 1 (Max96705.RemoteLookup.present e cfg) s =
        (Except.error e, s)) := by
  constructor
  · intro h
    simp [Max96705.max96705_get_mbus_config, Max96705.MAX96705_PAD_SOURCE, he, h,
      ENOIOCTLCMD]
  · intro h
    simp [Max96705.max96705_get_mbus_config, Max96705.MAX96705_PAD_SOURCE, he, h]

theorem c8_mbus_query_fallback_witness :
    Max96705.max96705_get_mbus_config ⟨0x40, 0⟩ 1
      (Max96705.RemoteLookup.present (-ENOIOCTLCMD) ⟨0, 0⟩)
      ⟨fun _ => 0, 0, []⟩ =
      (Except.ok (Max96705.V4L2_MBUS_GMSL_BWS_24B |||
        Max96705.V4L2_MBUS_GMSL_VSYNC_ACTIVE_HIGH), ⟨fun _ => 0, 0, []⟩) ∧
    Max96705.max96705_get_mbus_config ⟨0x40, 0⟩ 1
      (Max96705.RemoteLookup.present (-5) ⟨0, 0⟩) ⟨fun _ => 0, 0, []⟩ =
      (Except.error (-5), ⟨fun _ => 0, 0, []⟩) :=
  ⟨(c8_mbus_query_fallback ⟨0x40, 0⟩ (-ENOIOCTLCMD) ⟨0, 0⟩ ⟨fun _ => 0, 0, []⟩
      (by decide)).1 rfl,
   (c8_mbus_query_fallback ⟨0x40, 0⟩ (-5) ⟨0, 0⟩ ⟨fun _ => 0, 0, []⟩
      (by decide)).2 (by decide)⟩

lemma crossbar_write_list_zero (dev : Max96705.SerDev) :
    ∀ (l : List (Nat × Nat)) (u : Nat) (tr : List Event) (f : Nat → Int),
      (∀ k, f k = 0) →
      Max96705.crossbar_write_list dev l ⟨f, u, tr⟩ =
        (0, ⟨f, u + l.length,
          tr ++ l.map fun p => Event.write (Dev.i2cdev dev.addr) p.1 p.2⟩) := by
  intro l
  induction l with
  | nil =>
    intro u tr f hz
    simp [Max96705.crossbar_write_list]
  | cons p rest ih =>
    intro u tr f hz
    rw [Max96705.crossbar_write_list]
    simp only [Max96705.max96705_write, smbusWrite, busPop, emit, hz]
    rw [if_neg (by simp), ih (u + 1) _ f hz]
    simp [List.append_assoc]
    omega

/-- Claim C5: with a parallel downstream that reports
least-significant-bit-first data ordering, `max96705_get_mbus_config` writes
exactly the serializer crossbar registers `CROSSBAR(0..7)` with values
7,6,...,0 and `CROSSBAR(16..23)` with values 23,22,...,16, in that order and
nothing else; with a most-significant-bit-first downstream (no LSB flag) it
performs no register write at all. -/
theorem c5_crossbar_reversal_writes (dev : Max96705.SerDev) (fl : Nat)
    (f : Nat → Int) (hz : ∀ k, f k = 0) :
    (fl &&& Max96705.V4L2_MBUS_DATA_LSB ≠ 0 →
      (Max96705.max96705_get_mbus_config dev 1
        (Max96705.RemoteLookup.present 0 ⟨Max96705.V4L2_MBUS_PARALLEL, fl⟩)
        ⟨f, 0, []⟩).2.trace =
        ((List.range 8).map fun i =>
          Event.write (Dev.i2cdev dev.addr) (Max96705.MAX96705_CROSSBAR i) (7 - i)) ++
        ((List.range 8).map fun i =>
          Event.write (Dev.i2cdev dev.addr) (Max96705.MAX96705_CROSSBAR (16 + i))
            (23 - i))) ∧
    (fl &&& Max96705.V4L2_MBUS_DATA_LSB = 0 →
      (Max96705.max96705_get_mbus_config dev 1
        (Max96705.RemoteLookup.present 0 ⟨Max96705.V4L2_MBUS_PARALLEL, fl⟩)
        ⟨f, 0, []⟩).2.trace = []) := by
  have hcb := crossbar_write_list_zero dev Max96705.crossbarSeq 0 [] f hz
  constructor
  · intro hlsb
    by_cases hv : fl &&& Max96705.V4L2_MBUS_VSYNC_ACTIVE_HIGH = 0 <;>
      · simp [Max96705.max96705_get_mbus_config, Max96705.MAX96705_PAD_SOURCE,
          hlsb, hv, hcb]
        simp [Max96705.crossbarSeq, List.map_map, Function.comp_def]
  · intro hlsb
    by_cases hv : fl &&& Max96705.V4L2_MBUS_VSYNC_ACTIVE_HIGH = 0 <;>
      simp [Max96705.max96705_get_mbus_config, Max96705.MAX96705_PAD_SOURCE,
        hlsb, hv]

theorem c5_crossbar_reversal_writes_witness :
    (Max96705.max96705_get_mbus_config ⟨0x41, 0⟩ 1
      (Max96705.RemoteLookup.present 0
        ⟨Max96705.V4L2_MBUS_PARALLEL, Max96705.V4L2_MBUS_DATA_LSB⟩)
      ⟨fun _ => 0, 0, []⟩).2.trace =
      ((List.range 8).map fun i =>
        Event.write (Dev.i2cdev 0x41) (Max96705.MAX96705_CROSSBAR i) (7 - i)) ++
      ((List.range 8).map fun i =>
        Event.write (Dev.i2cdev 0x41) (Max96705.MAX96705_CROSSBAR (16 + i))
          (23 - i)) ∧
    (Max96705.max96705_get_mbus_config ⟨0x41, 0⟩ 1
      (Max96705.RemoteLookup.present 0 ⟨Max96705.V4L2_MBUS_PARALLEL, 0⟩)
      ⟨fun _ => 0, 0, []⟩).2.trace = [] :=
  ⟨(c5_crossbar_reversal_writes ⟨0x41, 0⟩ Max96705.V4L2_MBUS_DATA_LSB
      (fun _ => 0) (fun _ => rfl)).1 (by decide),
   (c5_crossbar_reversal_writes ⟨0x41, 0⟩ 0 (fun _ => 0) (fun _ => rfl)).2 rfl⟩

/-- Claim C3: `sg1_set_fmt` followed by `sg1_get_fmt` yields a format with
the request's width and height and a code drawn from the supported set
(UYVY8, RBG888, Y8); a request with a code outside that set is coerced to the
UYVY8 default rather than rejected, and `sg1_set_fmt` returns success for
every requested code. -/
theorem c3_set_get_format_roundtrip (dev : Sg1.Sg1Dev) (mf : Sg1.Framefmt)
    (s : BusState) :
    (Sg1.sg1_set_fmt dev 0 mf s).1 = 0 ∧
    (Sg1.sg1_get_fmt (Sg1.sg1_set_fmt dev 0 mf s).2.2.1 0
      (Sg1.sg1_set_fmt dev 0 mf s).2.1).1 = 0 ∧
    (Sg1.sg1_get_fmt (Sg1.sg1_set_fmt dev 0 mf s).2.2.1 0
      (Sg1.sg1_set_fmt dev 0 mf s).2.1).2.width = mf.width ∧
    (Sg1.sg1_get_fmt (Sg1.sg1_set_fmt dev 0 mf s).2.2.1 0
      (Sg1.sg1_set_fmt dev 0 mf s).2.1).2.height = mf.height ∧
    ((Sg1.sg1_get_fmt (Sg1.sg1_set_fmt dev 0 mf s).2.2.1 0
      (Sg1.sg1_set_fmt dev 0 mf s).2.1).2.code = Sg1.MEDIA_BUS_FMT_UYVY8_1X16 ∨
     (Sg1.sg1_get_fmt (Sg1.sg1_set_fmt dev 0 mf s).2.2.1 0
      (Sg1.sg1_set_fmt dev 0 mf s).2.1).2.code = Sg1.MEDIA_BUS_FMT_RBG888_1X24 ∨
     (Sg1.sg1_get_fmt (Sg1.sg1_set_fmt dev 0 mf s).2.2.1 0
      (Sg1.sg1_set_fmt dev 0 mf s).2.1).2.code = Sg1.MEDIA_BUS_FMT_Y8_1X8) ∧
    ((mf.code ≠ Sg1.MEDIA_BUS_FMT_UYVY8_1X16 ∧
      mf.code ≠ Sg1.MEDIA_BUS_FMT_RBG888_1X24 ∧
      mf.code ≠ Sg1.MEDIA_BUS_FMT_Y8_1X8) →
      (Sg1.sg1_get_fmt (Sg1.sg1_set_fmt dev 0 mf s).2.2.1 0
        (Sg1.sg1_set_fmt dev 0 mf s).2.1).2.code =
        Sg1.MEDIA_BUS_FMT_UYVY8_1X16) := by
  simp [Sg1.sg1_set_fmt, Sg1.sg1_get_fmt]

theorem c3_set_get_format_roundtrip_witness :
    (Sg1.sg1_set_fmt ⟨⟨0, 0, 0, 0, 0, 0, 0, 0⟩⟩ 0
      ⟨640, 480, 9999, 0, 0, 0, 0, 0⟩ ⟨fun _ => 0, 0, []⟩).1 = 0 ∧
    (Sg1.sg1_get_fmt
      (Sg1.sg1_set_fmt ⟨⟨0, 0, 0, 0, 0, 0, 0, 0⟩⟩ 0
        ⟨640, 480, 9999, 0, 0, 0, 0, 0⟩ ⟨fun _ => 0, 0, []⟩).2.2.1 0
      (Sg1.sg1_set_fmt ⟨⟨0, 0, 0, 0, 0, 0, 0, 0⟩⟩ 0
        ⟨640, 480, 9999, 0, 0, 0, 0, 0⟩ ⟨fun _ => 0, 0, []⟩).2.1).2.width = 640 ∧
    (Sg1.sg1_get_fmt
      (Sg1.sg1_set_fmt ⟨⟨0, 0, 0, 0, 0, 0, 0, 0⟩⟩ 0
        ⟨640, 480, 9999, 0, 0, 0, 0, 0⟩ ⟨fun _ => 0, 0, []⟩).2.2.1 0
      (Sg1.sg1_set_fmt ⟨⟨0, 0, 0, 0, 0, 0, 0, 0⟩⟩ 0
        ⟨640, 480, 9999, 0, 0, 0, 0, 0⟩ ⟨fun _ => 0, 0, []⟩).2.1).2.code =
      Sg1.MEDIA_BUS_FMT_UYVY8_1X16 := by
  have h := c3_set_get_format_roundtrip ⟨⟨0, 0, 0, 0, 0, 0, 0, 0⟩⟩
    ⟨640, 480, 9999, 0, 0, 0, 0, 0⟩ ⟨fun _ => 0, 0, []⟩
  exact ⟨h.1, h.2.2.1, h.2.2.2.2.2 (by decide)⟩

lemma vision_max9286_write_zero (f : Nat → Int) (hz : ∀ k, f k = 0) :
    ∀ (reg val u : Nat) (tr : List Event),
      Vision.max9286_write reg val ⟨f, u, tr⟩ =
        (0, ⟨f, u + 1, tr ++ [Event.write Dev.max9286 reg val]⟩) := by
  intro reg val u tr
  simp [Vision.max9286_write, smbusWrite, busPop, emit, hz]

lemma vision_max96705_write_zero (f : Nat → Int) (hz : ∀ k, f k = 0) :
    ∀ (dev : Vision.VisionDev) (reg val i u : Nat) (tr : List Event),
      Vision.max96705_write dev reg val i ⟨f, u, tr⟩ =
        (0, ⟨f, u + 1, tr ++ [Event.write
          (Dev.i2cdev (dev.max96705Addr.getD i 0)) reg val]⟩) := by
  intro dev reg val i u tr
  simp [Vision.max96705_write, smbusWrite, busPop, emit, hz]

lemma vision_ap0202_write_zero (f : Nat → Int) (hz : ∀ k, f k = 0) :
    ∀ (reg val i u : Nat) (tr : List Event),
      Vision.ap0202_write reg val i ⟨f, u, tr⟩ =
        (0, ⟨f, u + 1, tr ++ [Event.sendBuf
          (Dev.i2cdev Vision.AP0202_I2C_ADDRESS)
          [(reg >>> 8) % 256, reg &&& 0xff, (val >>> 8) % 256,
            val &&& 0xff]]⟩) := by
  intro reg val i u tr
  simp [Vision.ap0202_write, i2cSend, busPop, emit, hz]

lemma vision_max96705_configure_zero (f : Nat → Int) (hz : ∀ k, f k = 0) :
    ∀ (dev : Vision.VisionDev) (i u : Nat) (tr : List Event),
      Vision.max96705_configure dev i ⟨f, u, tr⟩ =
        (0, ⟨f, u + 3, tr ++
          [Event.write (Dev.i2cdev (dev.max96705Addr.getD i 0)) 0x04 0x47,
           Event.msleep 8,
           Event.write (Dev.i2cdev (dev.max96705Addr.getD i 0)) 0x07 0x84,
           Event.msleep 8,
           Event.write (Dev.i2cdev (dev.max96705Addr.getD i 0)) 0x0e 0x02,
           Event.msleep 10, Event.msleep 10]⟩) := by
  intro dev i u tr
  simp [Vision.max96705_configure, vision_max96705_write_zero f hz, msleep, emit]

lemma vision_configure_address_zero (f : Nat → Int) (hz : ∀ k, f k = 0) :
    ∀ (dev : Vision.VisionDev) (addr i u : Nat) (tr : List Event),
      Vision.max96705_configure_address dev addr i ⟨f, u, tr⟩ =
        (0, { dev with max96705Addr := dev.max96705Addr.set i addr },
          ⟨f, u + 1, tr ++
            [Event.write (Dev.i2cdev (dev.max96705Addr.getD i 0)) 0x00
              ((addr <<< 1) % 256),
             Event.usleepRange 3500 5000]⟩) := by
  intro dev addr i u tr
  simp [Vision.max96705_configure_address, vision_max96705_write_zero f hz,
    usleep, emit]

lemma vision_ap0202_write_seq_zero (f : Nat → Int) (hz : ∀ k, f k = 0)
    (i : Nat) :
    ∀ (l : List (Nat × Nat)) (u : Nat) (tr : List Event),
      Vision.ap0202_write_seq i l ⟨f, u, tr⟩ =
        (0, ⟨f, u + l.length, tr ++ l.flatMap fun p =>
          [Event.sendBuf (Dev.i2cdev Vision.AP0202_I2C_ADDRESS)
            [(p.1 >>> 8) % 256, p.1 &&& 0xff, (p.2 >>> 8) % 256, p.2 &&& 0xff],
           Event.msleep 100]⟩) := by
  intro l
  induction l with
  | nil =>
    intro u tr
    simp [Vision.ap0202_write_seq]
  | cons p rest ih =>
    intro u tr
    rw [Vision.ap0202_write_seq]
    simp [vision_ap0202_write_zero f hz, msleep, emit, ih]
    omega

lemma vision_ap0202_configure_zero (f : Nat → Int) (hz : ∀ k, f k = 0) :
    ∀ (a i u : Nat) (tr : List Event),
      Vision.ap0202_configure a i ⟨f, u, tr⟩ =
        (0, ⟨f, u + 14, tr ++ Vision.ispConfigTrace⟩) := by
  intro a i u tr
  rw [Vision.ap0202_configure, vision_ap0202_write_seq_zero f hz]
  simp [Vision.ispConfigTrace, Vision.ap0202RegSeq]

lemma camera_config_loop_zero (f : Nat → Int) (hz : ∀ k, f k = 0) :
    ∀ (pairs : List (Nat × Nat)) (i : Nat) (dev : Vision.VisionDev),
      (∀ j, j < pairs.length → dev.max96705Addr.getD (i + j) 0 = 0x40) →
      i + pairs.length ≤ dev.max96705Addr.length →
      ∀ (u : Nat) (tr : List Event),
        Vision.camera_config_loop pairs i dev ⟨f, u, tr⟩ =
          (0, ⟨Vision.setAddrs pairs i dev.max96705Addr⟩,
            ⟨f, u + 21 * pairs.length, tr ++ Vision.channelBlocks pairs i⟩) := by
  intro pairs
  induction pairs with
  | nil =>
    intro i dev hfac hlen u tr
    simp [Vision.camera_config_loop, Vision.channelBlocks, Vision.setAddrs]
  | cons p rest ih =>
    intro i dev hfac hlen u tr
    have hfac0 : dev.max96705Addr.getD i 0 = 0x40 := by
      simpa using hfac 0 (by simp)
    have hilt : i < dev.max96705Addr.length := by
      simp at hlen
      omega
    have hseti : (dev.max96705Addr.set i p.1).getD i 0 = p.1 := by
      simp [List.getD, List.getElem?_set_self, hilt]
    have hrec := ih (i + 1) ⟨dev.max96705Addr.set i p.1⟩
      (by
        intro j hj
        have hne : i ≠ i + 1 + j := by omega
        have := hfac (j + 1) (by simpa using Nat.succ_lt_succ hj)
        simpa [List.getD, List.getElem?_set_ne hne, Nat.add_assoc,
          Nat.add_comm 1 j] using this)
      (by
        simp at hlen ⊢
        omega)
    rw [Vision.camera_config_loop]
    simp only [vision_max9286_write_zero f hz, vision_max96705_configure_zero f hz,
      vision_configure_address_zero f hz, vision_max96705_write_zero f hz,
      vision_ap0202_configure_zero f hz, msleep, usleep, emit]
    simp only [hfac0, hseti]
    norm_num
    rw [hrec]
    have harith : u + 21 + 21 * rest.length = u + 21 * (rest.length + 1) := by
      omega
    simp only [Prod.mk.injEq, Vision.VisionDev.mk.injEq, BusState.mk.injEq]
    refine ⟨trivial, by simp [Vision.setAddrs], trivial, by omega, ?_⟩
    simp [Vision.channelBlocks, Vision.channelBlock, Vision.ispConfigTrace,
      Vision.MAX96705_I2C_ADDRESS, Vision.AP0202_I2C_ADDRESS]

/-- Claim C6: on a fault-free bus, `camera_config` with equal-length sensor
and ISP address lists (at most the four channels the device supports)
succeeds and its whole bus trace is exactly the concatenation, in channel
index order, of the per-channel blocks: each block first enables only that
channel's forward/reverse control-channel path, then configures the
serializer at the factory address 0x40, then reassigns its address, then
configures the ISP — so channel `i`'s address reassignment is on the bus
before any transaction of channel `i + 1`, whose factory-address device is
only enabled afterwards. -/
theorem c6_bring_up_strictly_sequential (saddrs iaddrs : List Nat)
    (f : Nat → Int) (hlen : saddrs.length = iaddrs.length)
    (hn : saddrs.length ≤ 4) (hz : ∀ k, f k = 0) :
    (Vision.camera_config saddrs iaddrs ⟨f, 0, []⟩).1 = 0 ∧
    (Vision.camera_config saddrs iaddrs ⟨f, 0, []⟩).2.2.trace =
      Vision.channelBlocks (saddrs.zip iaddrs) 0 := by
  have hzip : (saddrs.zip iaddrs).length = saddrs.length := by
    simp [hlen]
  have h := camera_config_loop_zero f hz (saddrs.zip iaddrs) 0
    ⟨List.replicate saddrs.length Vision.MAX96705_I2C_ADDRESS⟩
    (by
      intro j hj
      rw [hzip] at hj
      simp [List.getD, List.getElem?_replicate, hj,
        Vision.MAX96705_I2C_ADDRESS])
    (by simp [hzip]) 0 []
  refine ⟨?_, ?_⟩
  · simp only [Vision.camera_config]
    rw [if_neg (by simp [hlen]), h]
  · simp only [Vision.camera_config]
    rw [if_neg (by simp [hlen]), h]
    simp

theorem c6_bring_up_strictly_sequential_witness :
    (Vision.camera_config [0x51, 0x52] [0x5d, 0x5e] ⟨fun _ => 0, 0, []⟩).1 = 0 ∧
    (Vision.camera_config [0x51, 0x52] [0x5d, 0x5e]
      ⟨fun _ => 0, 0, []⟩).2.2.trace =
      Vision.channelBlocks ([0x51, 0x52].zip [0x5d, 0x5e]) 0 :=
  c6_bring_up_strictly_sequential [0x51, 0x52] [0x5d, 0x5e] (fun _ => 0) rfl
    (by decide) (fun _ => rfl)

end ClaimTheorems
